import Mathlib

/-!
Shallow embedding of `src/solace_consumer.py` (Solace message consumer):
the `MessageCounter` handler (`on_message`) and the `main` setup/run/teardown
sequence, together with proofs of the specification's testable properties.

Python values are modelled as follows: byte strings are `List Nat`
(each entry a byte value), optional values are `Option`, `bytes.decode`
is a strict UTF-8 decoder returning `Option String` (an exception is
`none`), and every print is recorded as a tagged output line rather
than raw text so that theorems can speak about which lines appear.
-/

namespace SolaceConsumer

/-- One byte of a Python `bytes` value. -/
abbrev Byte := Nat

/-- Is `b` a UTF-8 continuation byte (`0x80..0xBF`)? -/
def isCont (b : Byte) : Bool := 0x80 ≤ b && b ≤ 0xBF

/-- Valid second byte of a three-byte UTF-8 sequence with lead byte `b`
(strict decoding: overlong forms and surrogates rejected, as Python's
`bytes.decode("utf-8")` does). -/
def utf8Lead3Ok (b b1 : Byte) : Bool :=
  if b = 0xE0 then 0xA0 ≤ b1 && b1 ≤ 0xBF
  else if b = 0xED then 0x80 ≤ b1 && b1 ≤ 0x9F
  else isCont b1

/-- Valid second byte of a four-byte UTF-8 sequence with lead byte `b`. -/
def utf8Lead4Ok (b b1 : Byte) : Bool :=
  if b = 0xF0 then 0x90 ≤ b1 && b1 ≤ 0xBF
  else if b = 0xF4 then 0x80 ≤ b1 && b1 ≤ 0x8F
  else isCont b1

/-- Strict UTF-8 decoding of a byte list into characters; `none` models the
`UnicodeDecodeError` raised by Python's `bytes.decode("utf-8")`. -/
def utf8DecodeChars : List Byte → Option (List Char)
  | [] => some []
  | b :: rest =>
    if b < 0x80 then
      (utf8DecodeChars rest).map (fun cs => Char.ofNat b :: cs)
    else if 0xC2 ≤ b && b ≤ 0xDF then
      match rest with
      | b1 :: rest2 =>
        if isCont b1 then
          (utf8DecodeChars rest2).map
            (fun cs => Char.ofNat ((b - 0xC0) * 0x40 + (b1 - 0x80)) :: cs)
        else none
      | [] => none
    else if 0xE0 ≤ b && b ≤ 0xEF then
      match rest with
      | b1 :: b2 :: rest3 =>
        if utf8Lead3Ok b b1 && isCont b2 then
          (utf8DecodeChars rest3).map
            (fun cs => Char.ofNat ((b - 0xE0) * 0x1000 + (b1 - 0x80) * 0x40 + (b2 - 0x80)) :: cs)
        else none
      | _ => none
    else if 0xF0 ≤ b && b ≤ 0xF4 then
      match rest with
      | b1 :: b2 :: b3 :: rest4 =>
        if utf8Lead4Ok b b1 && isCont b2 && isCont b3 then
          (utf8DecodeChars rest4).map
            (fun cs => Char.ofNat ((b - 0xF0) * 0x40000 + (b1 - 0x80) * 0x1000
              + (b2 - 0x80) * 0x40 + (b3 - 0x80)) :: cs)
        else none
      | _ => none
    else none

/-- `bytes.decode("utf-8")` as a total function: `none` models the exception. -/
def utf8Decode (bs : List Byte) : Option String :=
  (utf8DecodeChars bs).map String.mk

/-- Hex digit character (lowercase), used by the byte-repr model. -/
def hexDigitChar (n : Nat) : Char :=
  if n < 10 then Char.ofNat (48 + n) else Char.ofNat (87 + n)

/-- How Python's `repr` renders a single byte inside a `bytes` literal. -/
def pyByteEscape (b : Byte) : List Char :=
  if b = 0x5C then [Char.ofNat 0x5C, Char.ofNat 0x5C]
  else if b = 0x27 then [Char.ofNat 0x5C, Char.ofNat 0x27]
  else if b = 9 then [Char.ofNat 0x5C, Char.ofNat 116]
  else if b = 10 then [Char.ofNat 0x5C, Char.ofNat 110]
  else if b = 13 then [Char.ofNat 0x5C, Char.ofNat 114]
  else if 0x20 ≤ b && b ≤ 0x7E then [Char.ofNat b]
  else [Char.ofNat 0x5C, Char.ofNat 120, hexDigitChar (b / 16), hexDigitChar (b % 16)]

/-- Python `repr` of a bytes value (single-quoted literal form), the literal
byte-sequence representation printed on the decode-failure path. -/
def bytesRepr (bs : List Byte) : String :=
  String.mk ([Char.ofNat 98, Char.ofNat 0x27]
    ++ bs.foldr (fun b acc => pyByteEscape b ++ acc) []
    ++ [Char.ofNat 0x27])

/-- The four possible outcomes of payload resolution in `on_message`
(lines 102-115 of `solace_consumer.py`). -/
inductive PayloadChoice
  /-- broker-supplied text representation (`get_payload_as_string`) -/
  | text (s : String)
  /-- UTF-8 decode of the raw bytes succeeded -/
  | decoded (s : String)
  /-- the sentinel printed for a missing or empty byte payload -/
  | emptySentinel
  /-- decode failed: literal byte representation via `repr` -/
  | byteRepr (bs : List Byte)
deriving DecidableEq, Repr

/-- The string actually printed for a payload choice. -/
def payloadString : PayloadChoice → String
  | PayloadChoice.text s => s
  | PayloadChoice.decoded s => s
  | PayloadChoice.emptySentinel => "[empty]"
  | PayloadChoice.byteRepr bs => bytesRepr bs

/-- Payload resolution, translated from `on_message`:
`payload_str = message.get_payload_as_string()`; if it `is not None` it is
used directly; otherwise `payload_bytes` is fetched and
`payload_bytes.decode("utf-8") if payload_bytes else "[empty]"` is attempted,
with `repr(payload_bytes)` on decode failure.  Python truthiness of
`payload_bytes` makes both `None` and the empty bytes render the sentinel. -/
def resolvePayload (payload_str : Option String) (payload_bytes : Option (List Byte)) :
    PayloadChoice :=
  match payload_str with
  | some s => PayloadChoice.text s
  | none =>
    match payload_bytes with
    | none => PayloadChoice.emptySentinel
    | some bs =>
      if bs.isEmpty then PayloadChoice.emptySentinel
      else
        match utf8Decode bs with
        | some s => PayloadChoice.decoded s
        | none => PayloadChoice.byteRepr bs

/-- The spec's description of payload resolution, stated as a relation
(used to show the code chooses exactly one admissible outcome):
prefer the broker text representation; otherwise an empty or missing byte
payload renders the sentinel; otherwise UTF-8 decode; on failure the
literal byte representation. -/
inductive PayloadSpec : Option String → Option (List Byte) → PayloadChoice → Prop
  | text (s : String) (pb : Option (List Byte)) : PayloadSpec (some s) pb (PayloadChoice.text s)
  | emptyNone : PayloadSpec none none PayloadChoice.emptySentinel
  | emptyNil : PayloadSpec none (some []) PayloadChoice.emptySentinel
  | decoded (bs : List Byte) (s : String) :
      bs ≠ [] → utf8Decode bs = some s → PayloadSpec none (some bs) (PayloadChoice.decoded s)
  | fallback (bs : List Byte) :
      bs ≠ [] → utf8Decode bs = none → PayloadSpec none (some bs) (PayloadChoice.byteRepr bs)

/-- An inbound message as `on_message` reads it: each getter of the Solace
`InboundMessage` object that the handler calls becomes a field; getters that
may return `None` become `Option`s. -/
structure InboundMessage where
  destination_name : String
  application_message_id : Option String
  application_message_type : Option String
  correlation_id : Option String
  sender_id : Option String
  sender_timestamp : Option Int
  priority : Option Int
  expiration : Option Int
  sequence_number : Option Int
  redelivered : Option Bool
  properties : Option (List (String × String))
  payload_as_string : Option String
  payload_as_bytes : Option (List Byte)
deriving DecidableEq, Repr

/-- The constructor arguments of `MessageCounter`: whether `self.receiver`
is truthy, plus the `is_persistent`, `show_message` and `show_headers`
flags. -/
structure HandlerConfig where
  hasReceiver : Bool
  is_persistent : Bool
  show_message : Bool
  show_headers : Bool
deriving DecidableEq, Repr

/-- The value carried by one printed header line. -/
inductive HeaderValue
  | str (s : String)
  | int (i : Int)
  | bool (b : Bool)
  | props (ps : List (String × String))
deriving DecidableEq, Repr

/-- One line printed by `on_message`, tagged by which `print` produced it. -/
inductive OutLine
  /-- the `"=" * 60` separator line -/
  | sep
  /-- `Message #n` -/
  | msgNum (n : Nat)
  /-- `Topic: ...` -/
  | topicLine (t : String)
  /-- `--- Message Headers ---` -/
  | headersBanner
  /-- one optional header field line, e.g. `Priority: 4` -/
  | header (name : String) (v : HeaderValue)
  /-- `Payload: ...` -/
  | payload (s : String)
  /-- `Total messages received: n` -/
  | total (n : Nat)
  /-- `Warning: Failed to acknowledge message: ...` -/
  | ackWarning
deriving DecidableEq, Repr

/-- An observable effect of one `on_message` invocation: a printed line or a
call to `self.receiver.ack(message)`. -/
inductive Event
  | out (l : OutLine)
  | ackCall (m : InboundMessage)
deriving DecidableEq, Repr

/-- Python truthiness of an optional string (`if app_msg_id:`):
`None` and the empty string are falsy. -/
def strTruthy : Option String → Bool
  | none => false
  | some s => !(s == "")

/-- Header line for a string-valued getter guarded by truthiness
(`if app_msg_id:` etc.). -/
def strHeaderLines (name : String) (v : Option String) : List OutLine :=
  match v with
  | some s => if s == "" then [] else [OutLine.header name (HeaderValue.str s)]
  | none => []

/-- Header line for a numeric getter guarded by `is not None`. -/
def intHeaderLines (name : String) (v : Option Int) : List OutLine :=
  match v with
  | some i => [OutLine.header name (HeaderValue.int i)]
  | none => []

/-- Header line for the redelivered flag, guarded by `is not None`. -/
def boolHeaderLines (name : String) (v : Option Bool) : List OutLine :=
  match v with
  | some b => [OutLine.header name (HeaderValue.bool b)]
  | none => []

/-- Header line for the user-properties mapping, guarded by truthiness
(`if properties:`): `None` and the empty mapping print nothing. -/
def propsHeaderLines (v : Option (List (String × String))) : List OutLine :=
  match v with
  | some ps => if ps.isEmpty then [] else [OutLine.header "User Properties" (HeaderValue.props ps)]
  | none => []

/-- The header block printed when `self.show_headers` holds
(lines 48-99 of `solace_consumer.py`): a banner, then each optional field
only when its guard passes. -/
def headerLines (m : InboundMessage) : List OutLine :=
  [OutLine.headersBanner]
  ++ strHeaderLines "Application Message ID" m.application_message_id
  ++ strHeaderLines "Application Message Type" m.application_message_type
  ++ strHeaderLines "Correlation ID" m.correlation_id
  ++ strHeaderLines "Sender ID" m.sender_id
  ++ intHeaderLines "Sender Timestamp" m.sender_timestamp
  ++ intHeaderLines "Priority" m.priority
  ++ intHeaderLines "Expiration" m.expiration
  ++ intHeaderLines "Sequence Number" m.sequence_number
  ++ boolHeaderLines "Redelivered" m.redelivered
  ++ propsHeaderLines m.properties

/-- `MessageCounter.on_message`, as a function from the current
`self.message_count` and the message to the new count and the list of
effects, in order.  `ackRaises` models whether `self.receiver.ack(message)`
raises for this message; the `except` clause turns that into a warning
print, so the handler always returns normally. -/
def onMessage (cfg : HandlerConfig) (count : Nat) (m : InboundMessage) (ackRaises : Bool) :
    Nat × List Event :=
  let c := count + 1
  let lines :=
    [OutLine.sep, OutLine.msgNum c, OutLine.topicLine m.destination_name]
    ++ (if cfg.show_headers then headerLines m else [])
    ++ (if cfg.show_message then
          [OutLine.payload (payloadString (resolvePayload m.payload_as_string m.payload_as_bytes))]
        else [])
    ++ [OutLine.sep, OutLine.total c]
  let ackEvents :=
    if cfg.is_persistent && cfg.hasReceiver then
      Event.ackCall m :: (if ackRaises then [Event.out OutLine.ackWarning] else [])
    else []
  (c, lines.map Event.out ++ ackEvents)

/-- Deliver a sequence of messages to the handler, one `on_message`
invocation per message, threading the count; each message comes with the
flag saying whether its ack call raises.  Returns the final count and the
per-invocation effect traces in delivery order. -/
def runAll (cfg : HandlerConfig) (count : Nat) :
    List (InboundMessage × Bool) → Nat × List (List Event)
  | [] => (count, [])
  | (m, r) :: rest =>
    let step := onMessage cfg count m r
    let restRun := runAll cfg step.1 rest
    (restRun.1, step.2 :: restRun.2)

/-- The messages passed to `receiver.ack` in a trace, in order. -/
def acksOf (evs : List Event) : List InboundMessage :=
  evs.filterMap (fun e => match e with
    | Event.ackCall m => some m
    | Event.out _ => none)

/-- The printed lines of a trace, in order. -/
def outLinesOf (evs : List Event) : List OutLine :=
  evs.filterMap (fun e => match e with
    | Event.out l => some l
    | Event.ackCall _ => none)

/-- Subscription mode, the `--mode {topic|queue}` choice. -/
inductive Mode
  | topic
  | queue
deriving DecidableEq, Repr

/-- The resolved configuration of `main` after argument parsing
(each field one of the `args.*` values). -/
structure ConsumerConfig where
  host : String
  vpn : String
  username : String
  password : String
  topic : String
  mode : Mode
  queueName : String
  queueExclusive : Bool
  ack : Bool
  showMessage : Bool
  showHeaders : Bool
deriving DecidableEq, Repr

/-- Outcomes of the broker-library calls that `main` makes, supplied by the
environment: each flag says whether the corresponding call raises. -/
structure MainEnv where
  buildFails : Bool
  connectFails : Bool
  startFails : Bool
  subscribeFails : Bool
  terminateFails : Bool
  disconnectFails : Bool
deriving DecidableEq, Repr

/-- A network-touching broker operation attempted by `main`. -/
inductive NetOp
  | connect
  | receiverStart
  | subscribe
  | terminate
  | disconnect
deriving DecidableEq, Repr

/-- Observable result of one run of `main`: process exit code, the fatal
error text if any, the broker operations attempted in order, the handler
traces, the teardown warnings, and the final count print if reached. -/
structure MainResult where
  exitCode : Nat
  errorMsg : Option String
  netOps : List NetOp
  blocks : List (List Event)
  warnings : List String
  finalCount : Option Nat
deriving DecidableEq, Repr

/-- The guard of `main`'s only input validation:
`SUBSCRIPTION_MODE == 'queue' and not QUEUE_NAME` (line 221). -/
def queueValidationFails (cfg : ConsumerConfig) : Bool :=
  cfg.mode == Mode.queue && cfg.queueName == ""

/-- The message passed to `parser.error` on failed validation. -/
def queueRequiredError : String := "--queue is required when --mode is \x27queue\x27"

/-- Warning printed when `receiver.terminate()` raises during cleanup. -/
def terminateWarning : String := "Warning: Error terminating receiver"

/-- Warning printed when `messaging_service.disconnect()` raises during cleanup. -/
def disconnectWarning : String := "Warning: Error disconnecting"

/-- Diagnostic printed by the `except` clauses at the bottom of `main`. -/
def setupErrorMsg : String := "Error during setup"

/-- How `main` wires up the handler: topic mode constructs
`MessageCounter(receiver=None, is_persistent=False, ...)` (line 268); queue
mode constructs `MessageCounter(receiver=receiver, is_persistent=ACK_ENABLED, ...)`
(line 289). -/
def mkHandlerConfig (cfg : ConsumerConfig) : HandlerConfig :=
  match cfg.mode with
  | Mode.topic =>
    { hasReceiver := false, is_persistent := false,
      show_message := cfg.showMessage, show_headers := cfg.showHeaders }
  | Mode.queue =>
    { hasReceiver := true, is_persistent := cfg.ack,
      show_message := cfg.showMessage, show_headers := cfg.showHeaders }

/-- Broker operations of a fully successful setup: connect, then start the
receiver (the queue bind happens at start), then, in topic mode only, add
the topic subscription. -/
def setupNetOps (cfg : ConsumerConfig) : List NetOp :=
  match cfg.mode with
  | Mode.topic => [NetOp.connect, NetOp.receiverStart, NetOp.subscribe]
  | Mode.queue => [NetOp.connect, NetOp.receiverStart]

/-- `main` as a function of the configuration, the environment's broker-call
outcomes, and the messages delivered (each with its ack-raises flag) before
the interrupt arrives.  `parser.error` prints the usage message and exits
with status 2 (argparse behaviour); each `except` clause at the bottom of
`main` calls `sys.exit(1)`; a run that reaches the end of `main` exits 0.
Cleanup failures (`receiver.terminate()`, `messaging_service.disconnect()`)
are caught and printed as warnings, after which the final count is printed. -/
def runMain (cfg : ConsumerConfig) (env : MainEnv)
    (delivered : List (InboundMessage × Bool)) : MainResult :=
  if queueValidationFails cfg then
    { exitCode := 2, errorMsg := some queueRequiredError, netOps := [],
      blocks := [], warnings := [], finalCount := none }
  else if env.buildFails then
    { exitCode := 1, errorMsg := some setupErrorMsg, netOps := [],
      blocks := [], warnings := [], finalCount := none }
  else if env.connectFails then
    { exitCode := 1, errorMsg := some setupErrorMsg, netOps := [NetOp.connect],
      blocks := [], warnings := [], finalCount := none }
  else if env.startFails then
    { exitCode := 1, errorMsg := some setupErrorMsg,
      netOps := [NetOp.connect, NetOp.receiverStart],
      blocks := [], warnings := [], finalCount := none }
  else if (cfg.mode == Mode.topic) && env.subscribeFails then
    { exitCode := 1, errorMsg := some setupErrorMsg,
      netOps := [NetOp.connect, NetOp.receiverStart, NetOp.subscribe],
      blocks := [], warnings := [], finalCount := none }
  else
    let run := runAll (mkHandlerConfig cfg) 0 delivered
    { exitCode := 0,
      errorMsg := none,
      netOps := setupNetOps cfg ++ [NetOp.terminate, NetOp.disconnect],
      blocks := run.2,
      warnings :=
        (if env.terminateFails then [terminateWarning] else [])
        ++ (if env.disconnectFails then [disconnectWarning] else []),
      finalCount := some run.1 }

/-! ## Basic lemmas about traces -/

theorem acksOf_append (a b : List Event) : acksOf (a ++ b) = acksOf a ++ acksOf b :=
  List.filterMap_append a b _

theorem outLinesOf_append (a b : List Event) :
    outLinesOf (a ++ b) = outLinesOf a ++ outLinesOf b :=
  List.filterMap_append a b _

theorem acksOf_outs (l : List OutLine) : acksOf (l.map Event.out) = [] := by
  induction l with
  | nil => rfl
  | cons x xs ih => simp [acksOf]

theorem outLinesOf_outs (l : List OutLine) : outLinesOf (l.map Event.out) = l := by
  induction l with
  | nil => rfl
  | cons x xs ih => simpa [outLinesOf] using ih

/-! ## Payload resolution (claims about lines 102-115) -/

/-- C2: payload resolution is total and deterministic: for every combination
of broker text representation and raw byte payload (including `None` and
empty), the code's choice satisfies the spec's case analysis, and it is the
only choice that does — exactly one of {text, decoded, sentinel, byte
representation} is selected, and, the function being total, no exception
escapes. -/
theorem resolvePayload_exactly_one (ps : Option String) (pb : Option (List Byte)) :
    PayloadSpec ps pb (resolvePayload ps pb) ∧
    ∀ c, PayloadSpec ps pb c → c = resolvePayload ps pb := by
  constructor
  · cases ps with
    | some s => exact PayloadSpec.text s pb
    | none =>
      cases pb with
      | none => exact PayloadSpec.emptyNone
      | some bs =>
        by_cases hbs : bs = []
        · subst hbs
          exact PayloadSpec.emptyNil
        · cases hd : utf8Decode bs with
          | some s =>
            have : resolvePayload none (some bs) = PayloadChoice.decoded s := by
              simp [resolvePayload, hbs, hd]
            rw [this]
            exact PayloadSpec.decoded bs s hbs hd
          | none =>
            have : resolvePayload none (some bs) = PayloadChoice.byteRepr bs := by
              simp [resolvePayload, hbs, hd]
            rw [this]
            exact PayloadSpec.fallback bs hbs hd
  · intro c hc
    cases hc with
    | text s pb => rfl
    | emptyNone => rfl
    | emptyNil => rfl
    | decoded bs s hne hdec => simp [resolvePayload, hne, hdec]
    | fallback bs hne hdec => simp [resolvePayload, hne, hdec]

/-- Witness for `resolvePayload_exactly_one` at a concrete input. -/
theorem resolvePayload_exactly_one_witness :
    PayloadChoice.emptySentinel = resolvePayload none (some []) :=
  (resolvePayload_exactly_one none (some [])).2 PayloadChoice.emptySentinel
    PayloadSpec.emptyNil

/-- C10: the `[empty]` sentinel arises only on the bytes fallback path: the
resolution yields the sentinel exactly when the text representation is
absent and the raw byte payload is `None` or empty; whenever the broker
supplies a text representation — the empty string included — that text is
chosen verbatim. -/
theorem emptySentinel_only_on_bytes (ps : Option String) (pb : Option (List Byte)) :
    (resolvePayload ps pb = PayloadChoice.emptySentinel ↔
      ps = none ∧ (pb = none ∨ pb = some [])) ∧
    (∀ s, ps = some s → resolvePayload ps pb = PayloadChoice.text s) := by
  constructor
  · cases ps with
    | some s => simp [resolvePayload]
    | none =>
      cases pb with
      | none => simp [resolvePayload]
      | some bs =>
        by_cases hbs : bs = []
        · subst hbs
          simp [resolvePayload]
        · cases hd : utf8Decode bs with
          | some s => simp [resolvePayload, hbs, hd]
          | none => simp [resolvePayload, hbs, hd]
  · intro s hs
    subst hs
    rfl

/-- Witness for `emptySentinel_only_on_bytes`: a text representation that
happens to spell `[empty]` is still printed as text, not as the sentinel. -/
theorem emptySentinel_only_on_bytes_witness :
    resolvePayload (some "[empty]") (some [0xFF]) = PayloadChoice.text "[empty]" :=
  (emptySentinel_only_on_bytes (some "[empty]") (some [0xFF])).2 "[empty]" rfl

/-! ## Counter lemmas -/

theorem onMessage_count (cfg : HandlerConfig) (c : Nat) (m : InboundMessage) (r : Bool) :
    (onMessage cfg c m r).1 = c + 1 := rfl

theorem msgNum_mem_onMessage (cfg : HandlerConfig) (c : Nat) (m : InboundMessage) (r : Bool) :
    Event.out (OutLine.msgNum (c + 1)) ∈ (onMessage cfg c m r).2 := by
  simp [onMessage]

theorem total_mem_onMessage (cfg : HandlerConfig) (c : Nat) (m : InboundMessage) (r : Bool) :
    Event.out (OutLine.total (c + 1)) ∈ (onMessage cfg c m r).2 := by
  simp [onMessage]

theorem runAll_count (cfg : HandlerConfig) :
    ∀ (msgs : List (InboundMessage × Bool)) (c : Nat),
      (runAll cfg c msgs).1 = c + msgs.length := by
  intro msgs
  induction msgs with
  | nil => intro c; simp [runAll]
  | cons p rest ih =>
    intro c
    obtain ⟨m, r⟩ := p
    show (runAll cfg (onMessage cfg c m r).1 rest).1 = c + (rest.length + 1)
    rw [onMessage_count, ih (c + 1)]
    omega

theorem runAll_block_counts (cfg : HandlerConfig) :
    ∀ (msgs : List (InboundMessage × Bool)) (c k : Nat) (evs : List Event),
      (runAll cfg c msgs).2.get? k = some evs →
      Event.out (OutLine.msgNum (c + k + 1)) ∈ evs ∧
      Event.out (OutLine.total (c + k + 1)) ∈ evs := by
  intro msgs
  induction msgs with
  | nil => intro c k evs h; simp [runAll] at h
  | cons p rest ih =>
    intro c k evs h
    obtain ⟨m, r⟩ := p
    cases k with
    | zero =>
      simp only [runAll, List.get?] at h
      cases h
      exact ⟨msgNum_mem_onMessage cfg c m r, total_mem_onMessage cfg c m r⟩
    | succ k =>
      simp only [runAll, List.get?, onMessage_count] at h
      have := ih (c + 1) k evs h
      rwa [show c + 1 + k + 1 = c + (k + 1) + 1 from by omega] at this

/-- C1: for every sequence of N delivered messages, the k-th `on_message`
invocation prints `Message #k` and a running total of k (the counter is
pre-incremented, so the first message is #1), and the final summary printed
during shutdown equals N, the number of handler invocations. -/
theorem counter_and_final_summary (cfg : ConsumerConfig) (env : MainEnv)
    (delivered : List (InboundMessage × Bool))
    (hv : queueValidationFails cfg = false)
    (hb : env.buildFails = false) (hc : env.connectFails = false)
    (hs : env.startFails = false) (hsub : env.subscribeFails = false) :
    (runMain cfg env delivered).finalCount = some delivered.length ∧
    ∀ k evs, (runMain cfg env delivered).blocks.get? k = some evs →
      Event.out (OutLine.msgNum (k + 1)) ∈ evs ∧
      Event.out (OutLine.total (k + 1)) ∈ evs := by
  have hmain : runMain cfg env delivered =
      { exitCode := 0, errorMsg := none,
        netOps := setupNetOps cfg ++ [NetOp.terminate, NetOp.disconnect],
        blocks := (runAll (mkHandlerConfig cfg) 0 delivered).2,
        warnings :=
          (if env.terminateFails then [terminateWarning] else [])
          ++ (if env.disconnectFails then [disconnectWarning] else []),
        finalCount := some (runAll (mkHandlerConfig cfg) 0 delivered).1 } := by
    simp [runMain, hv, hb, hc, hs, hsub]
  constructor
  · rw [hmain]
    simp [runAll_count]
  · intro k evs h
    rw [hmain] at h
    have := runAll_block_counts (mkHandlerConfig cfg) delivered 0 k evs h
    simpa using this

/-- Sample resolved configuration (the documented defaults, topic mode). -/
def cfgTopic : ConsumerConfig :=
  { host := "tcp://localhost:55555", vpn := "default", username := "default",
    password := "default", topic := "solace/samples/>", mode := Mode.topic,
    queueName := "", queueExclusive := true, ack := false,
    showMessage := true, showHeaders := false }

/-- Sample configuration in queue mode with acknowledgment enabled. -/
def cfgQueue : ConsumerConfig :=
  { cfgTopic with mode := Mode.queue, queueName := "q1", ack := true }

/-- Queue mode with an empty queue name (the validation failure). -/
def cfgQueueEmpty : ConsumerConfig :=
  { cfgTopic with mode := Mode.queue, queueName := "" }

/-- Environment in which every broker call succeeds. -/
def envOk : MainEnv :=
  { buildFails := false, connectFails := false, startFails := false,
    subscribeFails := false, terminateFails := false, disconnectFails := false }

/-- Environment in which both teardown calls raise. -/
def envTeardownFail : MainEnv :=
  { envOk with terminateFails := true, disconnectFails := true }

/-- A sample inbound message carrying a string payload and no headers. -/
def msgA : InboundMessage :=
  { destination_name := "solace/samples/hello", application_message_id := none,
    application_message_type := none, correlation_id := none, sender_id := none,
    sender_timestamp := none, priority := none, expiration := none,
    sequence_number := none, redelivered := none, properties := none,
    payload_as_string := some "hello", payload_as_bytes := none }

/-- Witness for `counter_and_final_summary`: one delivered message gives a
final summary of 1. -/
theorem counter_and_final_summary_witness :
    (runMain cfgTopic envOk [(msgA, false)]).finalCount = some 1 :=
  (counter_and_final_summary cfgTopic envOk [(msgA, false)] rfl rfl rfl rfl rfl).1

/-! ## Exit codes and validation -/

/-- C4 (amended): the exit code is 0 on a normal interrupt-triggered
shutdown and 1 on every connection or unexpected error among the broker
calls of the setup phase; the mode=queue empty-queue-name configuration
error, however, is reported through `parser.error`, which terminates the
process with status 2, not 1. -/
theorem exit_code_policy (cfg : ConsumerConfig) (env : MainEnv)
    (delivered : List (InboundMessage × Bool)) :
    (queueValidationFails cfg = true → (runMain cfg env delivered).exitCode = 2) ∧
    (queueValidationFails cfg = false →
      (env.buildFails || env.connectFails || env.startFails
        || ((cfg.mode == Mode.topic) && env.subscribeFails)) = true →
      (runMain cfg env delivered).exitCode = 1) ∧
    (queueValidationFails cfg = false →
      (env.buildFails || env.connectFails || env.startFails
        || ((cfg.mode == Mode.topic) && env.subscribeFails)) = false →
      (runMain cfg env delivered).exitCode = 0) := by
  refine ⟨fun h => by simp [runMain, h], fun h hf => ?_, fun h hf => ?_⟩
  · cases hb : env.buildFails <;> cases hc : env.connectFails <;>
      cases hs : env.startFails <;>
      cases ht : (cfg.mode == Mode.topic) && env.subscribeFails <;>
      simp [hb, hc, hs, ht] at hf <;>
      simp [runMain, h, hb, hc, hs, ht]
  · simp only [Bool.or_eq_false_iff] at hf
    obtain ⟨⟨⟨hb, hc⟩, hs⟩, ht⟩ := hf
    simp [runMain, h, hb, hc, hs, ht]

/-- Counterexample to C4 as stated: with mode=queue and an empty queue name
— a configuration error — the process exits with status 2 (argparse's
`parser.error`), not 1. -/
theorem exit_code_policy_counterexample :
    (runMain cfgQueueEmpty envOk []).exitCode = 2 ∧
    ¬ (runMain cfgQueueEmpty envOk []).exitCode = 1 := by
  constructor <;> decide

/-- Witness for `exit_code_policy`: a connect failure in a valid
configuration exits 1. -/
theorem exit_code_policy_witness :
    (runMain cfgTopic { envOk with connectFails := true } []).exitCode = 1 :=
  (exit_code_policy cfgTopic { envOk with connectFails := true } []).2.1 rfl rfl

/-- C5: whenever mode=queue and the queue name is empty — whatever the other
flags and whatever the environment would do — `main` stops with the
descriptive error naming `--queue` before any broker operation: no connect,
receiver start, subscribe or bind is attempted, no message is handled, and
no final count is printed. -/
theorem queue_validation_before_network (cfg : ConsumerConfig) (env : MainEnv)
    (delivered : List (InboundMessage × Bool))
    (hq : cfg.mode = Mode.queue) (hn : cfg.queueName = "") :
    (runMain cfg env delivered).netOps = [] ∧
    (runMain cfg env delivered).blocks = [] ∧
    (runMain cfg env delivered).errorMsg = some queueRequiredError ∧
    (runMain cfg env delivered).finalCount = none := by
  have hv : queueValidationFails cfg = true := by
    simp [queueValidationFails, hq, hn]
  simp [runMain, hv]

/-- Witness for `queue_validation_before_network` at a concrete input. -/
theorem queue_validation_before_network_witness :
    (runMain cfgQueueEmpty envOk [(msgA, false)]).netOps = [] ∧
    (runMain cfgQueueEmpty envOk [(msgA, false)]).errorMsg = some queueRequiredError :=
  ⟨(queue_validation_before_network cfgQueueEmpty envOk [(msgA, false)] rfl rfl).1,
   (queue_validation_before_network cfgQueueEmpty envOk [(msgA, false)] rfl rfl).2.2.1⟩

/-- C7: failures of `receiver.terminate()` or `messaging_service.disconnect()`
during shutdown are caught and logged as warnings and never propagate: for
every combination of the two outcomes the shutdown sequence completes, the
final message count is still printed, and the process exits 0. -/
theorem teardown_failures_nonfatal (cfg : ConsumerConfig) (env : MainEnv)
    (delivered : List (InboundMessage × Bool))
    (hv : queueValidationFails cfg = false)
    (hb : env.buildFails = false) (hc : env.connectFails = false)
    (hs : env.startFails = false) (hsub : env.subscribeFails = false) :
    (runMain cfg env delivered).exitCode = 0 ∧
    (runMain cfg env delivered).finalCount = some delivered.length ∧
    (env.terminateFails = true →
      terminateWarning ∈ (runMain cfg env delivered).warnings) ∧
    (env.disconnectFails = true →
      disconnectWarning ∈ (runMain cfg env delivered).warnings) := by
  have hmain : runMain cfg env delivered =
      { exitCode := 0, errorMsg := none,
        netOps := setupNetOps cfg ++ [NetOp.terminate, NetOp.disconnect],
        blocks := (runAll (mkHandlerConfig cfg) 0 delivered).2,
        warnings :=
          (if env.terminateFails then [terminateWarning] else [])
          ++ (if env.disconnectFails then [disconnectWarning] else []),
        finalCount := some (runAll (mkHandlerConfig cfg) 0 delivered).1 } := by
    simp [runMain, hv, hb, hc, hs, hsub]
  refine ⟨by rw [hmain], ?_, ?_, ?_⟩
  · rw [hmain]
    simp [runAll_count]
  · intro ht
    rw [hmain]
    simp [ht]
  · intro hd
    rw [hmain]
    simp [hd]

/-- Witness for `teardown_failures_nonfatal`: both teardown calls raise, the
run still exits 0 with both warnings logged. -/
theorem teardown_failures_nonfatal_witness :
    (runMain cfgQueue envTeardownFail []).exitCode = 0 ∧
    terminateWarning ∈ (runMain cfgQueue envTeardownFail []).warnings ∧
    disconnectWarning ∈ (runMain cfgQueue envTeardownFail []).warnings :=
  ⟨(teardown_failures_nonfatal cfgQueue envTeardownFail [] rfl rfl rfl rfl rfl).1,
   (teardown_failures_nonfatal cfgQueue envTeardownFail [] rfl rfl rfl rfl rfl).2.2.1 rfl,
   (teardown_failures_nonfatal cfgQueue envTeardownFail [] rfl rfl rfl rfl rfl).2.2.2 rfl⟩

/-! ## Trace characterizations -/

theorem outLines_onMessage (cfg : HandlerConfig) (c : Nat) (m : InboundMessage) (r : Bool) :
    outLinesOf (onMessage cfg c m r).2 =
      [OutLine.sep, OutLine.msgNum (c + 1), OutLine.topicLine m.destination_name]
      ++ (if cfg.show_headers then headerLines m else [])
      ++ (if cfg.show_message then
            [OutLine.payload (payloadString (resolvePayload m.payload_as_string m.payload_as_bytes))]
          else [])
      ++ [OutLine.sep, OutLine.total (c + 1)]
      ++ (if cfg.is_persistent && cfg.hasReceiver then
            (if r then [OutLine.ackWarning] else [])
          else []) := by
  show outLinesOf (List.map Event.out _ ++ _) = _
  rw [outLinesOf_append, outLinesOf_outs]
  by_cases hp : cfg.is_persistent && cfg.hasReceiver
  · by_cases hr2 : r <;> simp [hp, hr2, outLinesOf]
  · simp [hp, outLinesOf]

theorem acksOf_onMessage (cfg : HandlerConfig) (c : Nat) (m : InboundMessage) (r : Bool) :
    acksOf (onMessage cfg c m r).2 =
      if cfg.is_persistent && cfg.hasReceiver then [m] else [] := by
  show acksOf (List.map Event.out _ ++ _) = _
  rw [acksOf_append, acksOf_outs]
  by_cases hp : cfg.is_persistent && cfg.hasReceiver
  · by_cases hr2 : r <;> simp [hp, hr2, acksOf]
  · simp [hp, acksOf]

theorem runAll_acks (cfg : HandlerConfig) :
    ∀ (msgs : List (InboundMessage × Bool)) (c : Nat),
      ((runAll cfg c msgs).2).map acksOf =
        msgs.map (fun p => if cfg.is_persistent && cfg.hasReceiver then [p.1] else []) := by
  intro msgs
  induction msgs with
  | nil => intro c; simp [runAll]
  | cons p rest ih =>
    intro c
    obtain ⟨m, r⟩ := p
    show acksOf (onMessage cfg c m r).2 ::
        ((runAll cfg (onMessage cfg c m r).1 rest).2).map acksOf = _
    rw [acksOf_onMessage, onMessage_count, ih (c + 1)]
    rfl

/-! ## Acknowledgment claims -/

/-- C3: the receiver is acked exactly in queue mode with the acknowledge
flag set: with `main`'s wiring of the handler, every handled message then
produces exactly one `receiver.ack` call (carrying that message, in delivery
order) inside its `on_message` invocation; with the flag off, or in topic
mode whatever the flag, no invocation produces any ack call. -/
theorem ack_iff_queue_ack (cfg : ConsumerConfig) (c : Nat)
    (msgs : List (InboundMessage × Bool)) :
    ((runAll (mkHandlerConfig cfg) c msgs).2).map acksOf =
      if cfg.mode = Mode.queue ∧ cfg.ack = true
      then msgs.map (fun p => [p.1])
      else msgs.map (fun _ => ([] : List InboundMessage)) := by
  rw [runAll_acks]
  cases hm : cfg.mode <;> cases ha : cfg.ack <;> simp [mkHandlerConfig, hm, ha]

/-- C9: a raising `receiver.ack` is caught inside `on_message`: the handler
still returns normally with the already-incremented count, the failing
invocation still records its single ack call plus the logged warning, and
any subsequent messages yield the same final count and the same ack-call
sequence as if the ack had succeeded. -/
theorem ack_failure_contained (cfg : HandlerConfig) (c : Nat) (m : InboundMessage)
    (hp : cfg.is_persistent = true) (hr : cfg.hasReceiver = true) :
    (onMessage cfg c m true).1 = c + 1 ∧
    (onMessage cfg c m false).1 = c + 1 ∧
    Event.out OutLine.ackWarning ∈ (onMessage cfg c m true).2 ∧
    acksOf (onMessage cfg c m true).2 = [m] ∧
    ∀ rest : List (InboundMessage × Bool),
      (runAll cfg c ((m, true) :: rest)).1 = (runAll cfg c ((m, false) :: rest)).1 ∧
      ((runAll cfg c ((m, true) :: rest)).2).map acksOf =
        ((runAll cfg c ((m, false) :: rest)).2).map acksOf := by
  refine ⟨rfl, rfl, ?_, ?_, ?_⟩
  · simp [onMessage, hp, hr]
  · rw [acksOf_onMessage]
    simp [hp, hr]
  · intro rest
    refine ⟨rfl, ?_⟩
    show acksOf (onMessage cfg c m true).2 ::
        ((runAll cfg (onMessage cfg c m true).1 rest).2).map acksOf =
      acksOf (onMessage cfg c m false).2 ::
        ((runAll cfg (onMessage cfg c m false).1 rest).2).map acksOf
    rw [acksOf_onMessage, acksOf_onMessage, onMessage_count, onMessage_count]

/-- The handler configuration `main` builds in queue mode with `--ack`. -/
def handlerQueueAck : HandlerConfig :=
  { hasReceiver := true, is_persistent := true, show_message := true, show_headers := false }

/-- Witness for `ack_failure_contained` at a concrete input. -/
theorem ack_failure_contained_witness :
    Event.out OutLine.ackWarning ∈ (onMessage handlerQueueAck 0 msgA true).2 ∧
    acksOf (onMessage handlerQueueAck 0 msgA true).2 = [msgA] :=
  ⟨(ack_failure_contained handlerQueueAck 0 msgA rfl rfl).2.2.1,
   (ack_failure_contained handlerQueueAck 0 msgA rfl rfl).2.2.2.1⟩

/-! ## Header-line lemmas -/

theorem mem_if_list {α : Type} {c : Prop} [Decidable c] (x : α) (l : List α) :
    x ∈ (if c then l else []) ↔ c ∧ x ∈ l := by
  by_cases h : c <;> simp [h]

theorem mem_strHeaderLines (x : OutLine) (name : String) (v : Option String) :
    x ∈ strHeaderLines name v ↔
      ∃ s, v = some s ∧ ¬ s = "" ∧ x = OutLine.header name (HeaderValue.str s) := by
  cases v with
  | none => simp [strHeaderLines]
  | some s => by_cases h : s = "" <;> simp [strHeaderLines, h]

theorem mem_intHeaderLines (x : OutLine) (name : String) (v : Option Int) :
    x ∈ intHeaderLines name v ↔
      ∃ i, v = some i ∧ x = OutLine.header name (HeaderValue.int i) := by
  cases v with
  | none => simp [intHeaderLines]
  | some i => simp [intHeaderLines]

theorem mem_boolHeaderLines (x : OutLine) (name : String) (v : Option Bool) :
    x ∈ boolHeaderLines name v ↔
      ∃ b, v = some b ∧ x = OutLine.header name (HeaderValue.bool b) := by
  cases v with
  | none => simp [boolHeaderLines]
  | some b => simp [boolHeaderLines]

theorem mem_propsHeaderLines (x : OutLine) (v : Option (List (String × String))) :
    x ∈ propsHeaderLines v ↔
      ∃ ps, v = some ps ∧ ¬ ps = [] ∧
        x = OutLine.header "User Properties" (HeaderValue.props ps) := by
  cases v with
  | none => simp [propsHeaderLines]
  | some ps => by_cases h : ps = [] <;> simp [propsHeaderLines, h, List.isEmpty_iff]

/-- A printed header line can only come from the headers block, and only
when the flag is on. -/
theorem header_mem_out (cfg : HandlerConfig) (c : Nat) (m : InboundMessage) (r : Bool)
    (name : String) (v : HeaderValue)
    (hmem : OutLine.header name v ∈ outLinesOf (onMessage cfg c m r).2) :
    cfg.show_headers = true ∧ OutLine.header name v ∈ headerLines m := by
  rw [outLines_onMessage] at hmem
  by_cases hh : cfg.show_headers <;>
    by_cases hs : cfg.show_message <;>
    by_cases hp : cfg.is_persistent && cfg.hasReceiver <;>
    by_cases hr2 : r <;>
    simp [hh, hs, hp, hr2] at hmem <;>
    exact ⟨hh, hmem⟩

/-- C6: with the header flag set, each of the fixed set of optional header
fields is printed only when present on the message: an absent (`None`)
field produces no line at all, and no header line is ever printed with an
empty string or empty properties-mapping value. -/
theorem headers_only_when_present (cfg : HandlerConfig) (c : Nat) (m : InboundMessage)
    (r : Bool) (_h : cfg.show_headers = true) :
    (m.application_message_id = none →
      ∀ v, OutLine.header "Application Message ID" v ∉ outLinesOf (onMessage cfg c m r).2) ∧
    (m.application_message_type = none →
      ∀ v, OutLine.header "Application Message Type" v ∉ outLinesOf (onMessage cfg c m r).2) ∧
    (m.correlation_id = none →
      ∀ v, OutLine.header "Correlation ID" v ∉ outLinesOf (onMessage cfg c m r).2) ∧
    (m.sender_id = none →
      ∀ v, OutLine.header "Sender ID" v ∉ outLinesOf (onMessage cfg c m r).2) ∧
    (m.sender_timestamp = none →
      ∀ v, OutLine.header "Sender Timestamp" v ∉ outLinesOf (onMessage cfg c m r).2) ∧
    (m.priority = none →
      ∀ v, OutLine.header "Priority" v ∉ outLinesOf (onMessage cfg c m r).2) ∧
    (m.expiration = none →
      ∀ v, OutLine.header "Expiration" v ∉ outLinesOf (onMessage cfg c m r).2) ∧
    (m.sequence_number = none →
      ∀ v, OutLine.header "Sequence Number" v ∉ outLinesOf (onMessage cfg c m r).2) ∧
    (m.redelivered = none →
      ∀ v, OutLine.header "Redelivered" v ∉ outLinesOf (onMessage cfg c m r).2) ∧
    (m.properties = none →
      ∀ v, OutLine.header "User Properties" v ∉ outLinesOf (onMessage cfg c m r).2) ∧
    (∀ name s, OutLine.header name (HeaderValue.str s) ∈ outLinesOf (onMessage cfg c m r).2 →
      ¬ s = "") ∧
    (∀ name ps, OutLine.header name (HeaderValue.props ps) ∈ outLinesOf (onMessage cfg c m r).2 →
      ¬ ps = []) := by
  refine ⟨?_, ?_, ?_, ?_, ?_, ?_, ?_, ?_, ?_, ?_, ?_, ?_⟩
  · intro hnone v hmem
    obtain ⟨-, hin⟩ := header_mem_out cfg c m r _ v hmem
    simp [headerLines, mem_strHeaderLines, mem_intHeaderLines, mem_boolHeaderLines,
      mem_propsHeaderLines, hnone] at hin
  · intro hnone v hmem
    obtain ⟨-, hin⟩ := header_mem_out cfg c m r _ v hmem
    simp [headerLines, mem_strHeaderLines, mem_intHeaderLines, mem_boolHeaderLines,
      mem_propsHeaderLines, hnone] at hin
  · intro hnone v hmem
    obtain ⟨-, hin⟩ := header_mem_out cfg c m r _ v hmem
    simp [headerLines, mem_strHeaderLines, mem_intHeaderLines, mem_boolHeaderLines,
      mem_propsHeaderLines, hnone] at hin
  · intro hnone v hmem
    obtain ⟨-, hin⟩ := header_mem_out cfg c m r _ v hmem
    simp [headerLines, mem_strHeaderLines, mem_intHeaderLines, mem_boolHeaderLines,
      mem_propsHeaderLines, hnone] at hin
  · intro hnone v hmem
    obtain ⟨-, hin⟩ := header_mem_out cfg c m r _ v hmem
    simp [headerLines, mem_strHeaderLines, mem_intHeaderLines, mem_boolHeaderLines,
      mem_propsHeaderLines, hnone] at hin
  · intro hnone v hmem
    obtain ⟨-, hin⟩ := header_mem_out cfg c m r _ v hmem
    simp [headerLines, mem_strHeaderLines, mem_intHeaderLines, mem_boolHeaderLines,
      mem_propsHeaderLines, hnone] at hin
  · intro hnone v hmem
    obtain ⟨-, hin⟩ := header_mem_out cfg c m r _ v hmem
    simp [headerLines, mem_strHeaderLines, mem_intHeaderLines, mem_boolHeaderLines,
      mem_propsHeaderLines, hnone] at hin
  · intro hnone v hmem
    obtain ⟨-, hin⟩ := header_mem_out cfg c m r _ v hmem
    simp [headerLines, mem_strHeaderLines, mem_intHeaderLines, mem_boolHeaderLines,
      mem_propsHeaderLines, hnone] at hin
  · intro hnone v hmem
    obtain ⟨-, hin⟩ := header_mem_out cfg c m r _ v hmem
    simp [headerLines, mem_strHeaderLines, mem_intHeaderLines, mem_boolHeaderLines,
      mem_propsHeaderLines, hnone] at hin
  · intro hnone v hmem
    obtain ⟨-, hin⟩ := header_mem_out cfg c m r _ v hmem
    simp [headerLines, mem_strHeaderLines, mem_intHeaderLines, mem_boolHeaderLines,
      mem_propsHeaderLines, hnone] at hin
  · intro name s hmem hs
    subst hs
    obtain ⟨-, hin⟩ := header_mem_out cfg c m r name (HeaderValue.str "") hmem
    simp [headerLines, mem_strHeaderLines, mem_intHeaderLines, mem_boolHeaderLines,
      mem_propsHeaderLines] at hin
    rcases hin with ⟨s, _, hne, _, hse⟩ | ⟨s, _, hne, _, hse⟩ | ⟨s, _, hne, _, hse⟩ |
      ⟨s, _, hne, _, hse⟩ <;> exact hne hse.symm
  · intro name ps hmem hps
    subst hps
    obtain ⟨-, hin⟩ := header_mem_out cfg c m r name (HeaderValue.props []) hmem
    simp [headerLines, mem_strHeaderLines, mem_intHeaderLines, mem_boolHeaderLines,
      mem_propsHeaderLines] at hin
    obtain ⟨ps, _, hne, _, hpe⟩ := hin
    exact hne hpe

/-- The handler configuration with header display enabled. -/
def handlerHeaders : HandlerConfig :=
  { hasReceiver := false, is_persistent := false, show_message := true, show_headers := true }

/-- Witness for `headers_only_when_present`: a message with no priority set
never produces a `Priority` header line. -/
theorem headers_only_when_present_witness :
    OutLine.header "Priority" (HeaderValue.int 4) ∉
      outLinesOf (onMessage handlerHeaders 0 msgA false).2 :=
  (headers_only_when_present handlerHeaders 0 msgA false rfl).2.2.2.2.2.1 rfl
    (HeaderValue.int 4)

/-- C8: with the header flag off, `on_message` prints no header banner and
no header-field line for any message, and the rest of the printed block —
separator, message number, destination, optional payload, separator,
running total — does not depend on the message's header fields at all. -/
theorem no_header_lines_when_flag_off (cfg : HandlerConfig) (c : Nat) (m : InboundMessage)
    (r : Bool) (h : cfg.show_headers = false) :
    OutLine.headersBanner ∉ outLinesOf (onMessage cfg c m r).2 ∧
    (∀ name v, OutLine.header name v ∉ outLinesOf (onMessage cfg c m r).2) ∧
    ∀ m2 : InboundMessage, m2.destination_name = m.destination_name →
      m2.payload_as_string = m.payload_as_string →
      m2.payload_as_bytes = m.payload_as_bytes →
      outLinesOf (onMessage cfg c m2 r).2 = outLinesOf (onMessage cfg c m r).2 ∧
      (onMessage cfg c m2 r).1 = (onMessage cfg c m r).1 := by
  refine ⟨?_, ?_, ?_⟩
  · rw [outLines_onMessage]
    simp [h, mem_if_list]
  · intro name v
    rw [outLines_onMessage]
    simp [h, mem_if_list]
  · intro m2 h1 h2 h3
    exact ⟨by simp [outLines_onMessage, h, h1, h2, h3], rfl⟩

/-- A message with every optional header field populated. -/
def msgFull : InboundMessage :=
  { msgA with
    application_message_id := some "id-1", application_message_type := some "event",
    correlation_id := some "corr-1", sender_id := some "sender-1",
    sender_timestamp := some 1700000000000, priority := some 4,
    expiration := some 0, sequence_number := some 42,
    redelivered := some true, properties := some [("k", "v")] }

/-- Witness for `no_header_lines_when_flag_off`: with the flag off, even a
message whose fields are all set prints no header banner. -/
theorem no_header_lines_when_flag_off_witness :
    OutLine.headersBanner ∉ outLinesOf (onMessage handlerQueueAck 0 msgFull false).2 :=
  (no_header_lines_when_flag_off handlerQueueAck 0 msgFull false rfl).1

end SolaceConsumer
